import Mathlib

/-!
Verification of the distributed-training driver in `src/main.py` of the
fattorib/transformer repository.  The Python code is shallowly embedded:
tensors become lists of scalar values, a scalar is a rational number or a
single non-finite marker, pytrees become lists of leaves, and the external
collaborators (the jax differentiation engine, the model apply function and
the optax optimizer transformation) are higher-order parameters, exactly as
the code treats them (opaque functions with a fixed contract).
Line numbers in the comments refer to `src/main.py`.
-/

namespace Transformer

/-- A scalar floating-point value: a finite rational, or a single marker for
the non-finite values (inf, -inf, nan).  The properties under study only
distinguish finite from non-finite scalars. -/
inductive FpVal where
  | fin (q : ℚ)
  | nonfin
deriving DecidableEq

/-- `lax.is_finite` on a scalar. -/
def FpVal.isFinite : FpVal → Bool
  | .fin _ => true
  | .nonfin => false

/-- Elementwise addition (used by `optax.apply_updates`); a non-finite
operand poisons the result, as in IEEE arithmetic. -/
def fpAdd : FpVal → FpVal → FpVal
  | .fin a, .fin b => .fin (a + b)
  | _, _ => .nonfin

/-- Multiplication by a finite rational scalar (loss scaling).  A non-finite
value stays non-finite when multiplied by a finite scale. -/
def fpMul (s : ℚ) : FpVal → FpVal
  | .fin a => .fin (s * a)
  | .nonfin => .nonfin

/-- Division by a finite rational scalar (gradient unscaling).  Division by
zero yields a non-finite value; a non-finite value stays non-finite. -/
def fpDiv : FpVal → ℚ → FpVal
  | .fin a, s => if s = 0 then .nonfin else .fin (a / s)
  | .nonfin, _ => .nonfin

/-- A tensor leaf, flattened to its list of scalar entries. -/
abbrev Leaf := List FpVal

/-- A pytree of tensors, flattened to its list of leaves (jax tree
operations act leaf-wise, so the flattening is faithful for them). -/
abbrev PyTree := List Leaf

/-- A batch of input token ids. -/
abbrev Batch := List ℤ

/-- The shape of a pytree: the length of every leaf.  Two pytrees with the
same `shape` correspond to jax pytrees with identical treedef and leaf
shapes, the precondition of every binary `tree_map` in the source. -/
def shape (t : PyTree) : List ℕ := t.map List.length

/-- The finiteness check of `flax.training.dynamic_scale`: every entry of
every gradient leaf is finite. -/
def allFinite (t : PyTree) : Bool := t.all (fun l => l.all FpVal.isFinite)

/-- `jnp.where` with a scalar (broadcast) condition, applied to two operands
of equal shape: selects the first operand when the condition holds, the
second otherwise. -/
def jnpWhere (b : Bool) (x y : FpVal) : FpVal := if b then x else y

/-- `jax.tree_util.tree_map(partial(jnp.where, is_fin), new, old)` from
lines 583-588: the scalar condition is broadcast over every leaf. -/
def treeSelect (b : Bool) (new old : PyTree) : PyTree :=
  List.zipWith (fun nl ol => List.zipWith (fun n o => jnpWhere b n o) nl ol) new old

/-- `optax.apply_updates(params, updates)`: elementwise tree addition. -/
def treeAdd (p u : PyTree) : PyTree :=
  List.zipWith (fun pl ul => List.zipWith fpAdd pl ul) p u

/-- Dividing every gradient entry by the loss scale,
`tree_map(lambda g: g / scale, grads)` in flax DynamicScale. -/
def unscaleGrads (scale : ℚ) (g : PyTree) : PyTree :=
  g.map (fun l => l.map (fun v => fpDiv v scale))

/-- Loss-scale growth factor.  Modelled from the spec: the repository's
`TrainState` (src/training/training_utils.py, not in src/) holds a flax
`DynamicScale` with default hyperparameters; flax documents growth 2.0,
backoff 0.5, growth interval 2000. -/
def growthFactor : ℚ := 2

/-- Loss-scale backoff factor (flax default 0.5); see `growthFactor`. -/
def backoffFactor : ℚ := 1 / 2

/-- Loss-scale growth interval (flax default 2000); see `growthFactor`. -/
def growthInterval : ℕ := 2000

/-- The dynamic loss-scaling state: the current scale and the rolling count
of consecutive finite steps.  Modelled from the spec ("optional mutable
scalar state tracking a loss multiplier and a rolling counter of
overflow/underflow events") and flax's documented `DynamicScale`. -/
structure DynamicScale where
  finSteps : ℕ
  scale : ℚ
deriving DecidableEq

/-- The loss-scale adjustment performed by flax `DynamicScale` after each
gradient computation: on a non-finite gradient the scale backs off (halves)
and the finite-step counter resets; on a finite gradient the scale grows
only after `growthInterval` consecutive finite steps. -/
def dsUpdate (ds : DynamicScale) (finite : Bool) : DynamicScale :=
  { finSteps := if (ds.finSteps == growthInterval) || !finite then 0 else ds.finSteps + 1
    scale :=
      if finite then
        (if (ds.finSteps == growthInterval) && finite then ds.scale * growthFactor
         else ds.scale)
      else ds.scale * backoffFactor }

/-- The reverse-mode differentiation engine `jax.value_and_grad`: an opaque
collaborator mapping a scalar loss function and a parameter tree to the loss
value and the gradient tree. -/
abbrev GradEngine := (PyTree → FpVal) → PyTree → FpVal × PyTree

/-- The loss function scaled by the current loss scale, as built inside flax
`DynamicScale.value_and_grad` before differentiating. -/
def scaledLossFn (ds : DynamicScale) (f : PyTree → FpVal) : PyTree → FpVal :=
  fun p => fpMul ds.scale (f p)

/-- flax `DynamicScale.value_and_grad` (called at lines 562-563): scale the
loss, differentiate, unscale the gradients, test them for finiteness, and
adjust the scale.  Returns (new scale state, is_fin, loss, grads). -/
def dynValueAndGrad (vg : GradEngine) (ds : DynamicScale) (f : PyTree → FpVal)
    (params : PyTree) : DynamicScale × Bool × FpVal × PyTree :=
  let grads := unscaleGrads ds.scale (vg (scaledLossFn ds f) params).2
  (dsUpdate ds (allFinite grads), allFinite grads,
   fpDiv (vg (scaledLossFn ds f) params).1 ds.scale, grads)

/-- A partition specification: one axis assignment per tensor dimension per
leaf (the values never influence computed numbers). -/
abbrev PartSpec := List (List (Option ℕ))

/-- `with_sharding_constraint` (line 571): constrains the layout of the
gradients on the device mesh and is the identity on their values. -/
def withShardingConstraint (g : PyTree) (_spec : PartSpec) : PyTree := g

/-- The ambient jax primitives used by the step functions: the
differentiation engine and `jnp.exp` (only used to report perplexity). -/
structure JaxEnv where
  valueAndGrad : GradEngine
  exp : FpVal → FpVal

/-- The training state threaded through the loop.  Modelled from the spec:
the repository's `TrainState` (src/training/training_utils.py, not in src/)
is a flax train state carrying params, optimizer state, a step counter, the
optimizer transformation, the model apply function, and an optional dynamic
loss-scale state. -/
structure TrainState where
  step : ℕ
  params : PyTree
  opt_state : PyTree
  tx : PyTree → PyTree → PyTree → PyTree × PyTree
  apply_fn : PyTree → Batch → Bool → Option ℕ → FpVal
  dynamic_scale : Option DynamicScale

/-- The inner `loss_fn` of `train_step` (lines 549-558): apply the model to
the batch (as both inputs and labels) in training mode with the given
dropout rng, keeping only the loss. -/
def mkLossFn (s : TrainState) (batch : Batch) (rng : ℕ) : PyTree → FpVal :=
  fun p => s.apply_fn p batch true (some rng)

/-- flax `TrainState.apply_gradients` (line 575): run the optimizer update,
apply the updates to the params, and increment the step counter by 1. -/
def apply_gradients (s : TrainState) (grads : PyTree) : TrainState :=
  { s with
    step := s.step + 1
    params := treeAdd s.params (s.tx grads s.opt_state s.params).1
    opt_state := (s.tx grads s.opt_state s.params).2 }

/-- Train-step metrics (lines 592-598): loss, perplexity, and the loss scale
when dynamic scaling is active. -/
structure Metrics where
  trainLoss : FpVal
  trainPPL : FpVal
  lossScale : Option ℚ
deriving DecidableEq

/-- `train_step` (lines 544-600).  With dynamic scaling: differentiate via
`DynamicScale.value_and_grad`, store the adjusted scale state (line 564),
apply the gradients (line 575), then roll back params and optimizer state to
their pre-step values when the gradients were non-finite (lines 579-590).
Without dynamic scaling: differentiate, optionally constrain the gradient
sharding (lines 570-573), and apply the gradients. -/
def train_step (env : JaxEnv) (s : TrainState) (batch : Batch) (rng : ℕ)
    (param_spec : Option PartSpec) : TrainState × Metrics :=
  match s.dynamic_scale with
  | some ds0 =>
      let res := dynValueAndGrad env.valueAndGrad ds0 (mkLossFn s batch rng) s.params
      let state1 := { s with dynamic_scale := some res.1 }
      let applied := apply_gradients state1 res.2.2.2
      let new_state :=
        { applied with
          opt_state := treeSelect res.2.1 applied.opt_state state1.opt_state
          params := treeSelect res.2.1 applied.params state1.params
          dynamic_scale := some res.1 }
      (new_state,
       { trainLoss := res.2.2.1
         trainPPL := env.exp res.2.2.1
         lossScale := some res.1.scale })
  | none =>
      let vg := env.valueAndGrad (mkLossFn s batch rng) s.params
      let grads :=
        match param_spec with
        | some ps => withShardingConstraint vg.2 ps
        | none => vg.2
      (apply_gradients s grads,
       { trainLoss := vg.1, trainPPL := env.exp vg.1, lossScale := none })

/-- The gradient tree computed inside the dynamic-scaling branch of
`train_step` (the `grads` of line 563). -/
def dynGrads (env : JaxEnv) (s : TrainState) (batch : Batch) (rng : ℕ)
    (ds : DynamicScale) : PyTree :=
  (dynValueAndGrad env.valueAndGrad ds (mkLossFn s batch rng) s.params).2.2.2

/-- The assertion guarding mesh construction (lines 89-91):
`num_devices // (dp_devices * mp_devices) == 1` (Python floor division). -/
def meshAssertPasses (numDevices dpDevices mpDevices : ℕ) : Bool :=
  numDevices / (dpDevices * mpDevices) == 1

/-- The sequence-length schedule actually bound at line 395:
`step_to_seq = lambda x: 512`. -/
def step_to_seq (_x : ℕ) : ℕ := 512

/-- Whether the microbatch with absolute index `i` reaches the train-step
call in the loop body (lines 427-452): the loop returns once
`i // gradient_accumulation_steps` exceeds `total_steps` (lines 429-435,
a condition monotone in `i`), and a resumed run skips every index
`i <= resume_step` (lines 437-438). -/
def processedMicrobatch (gaSteps totalSteps : ℕ) (resumeStep : Option ℕ)
    (i : ℕ) : Bool :=
  if totalSteps < i / gaSteps then false
  else
    match resumeStep with
    | some r => decide (r < i)
    | none => true

/-- One post-train-step bookkeeping pass of the loop body for microbatch
`i` (lines 457-490): append the step metrics to the running list; when
`i % gradient_accumulation_steps == 0` the accumulation window completes,
the window (whose size is reported) is averaged and cleared, and the window
additionally triggers evaluation plus checkpointing when
`i % (evaluation_frequency * gradient_accumulation_steps) == 0`.  Returns
the new running list and, when the window completed, its size and the
evaluation/checkpoint flag. -/
def driverIter (gaSteps efSteps : ℕ) (running : List Metrics) (i : ℕ)
    (m : Metrics) : List Metrics × Option (ℕ × Bool) :=
  let running1 := running ++ [m]
  if i % gaSteps == 0 then
    (([] : List Metrics), some (running1.length, i % (efSteps * gaSteps) == 0))
  else (running1, none)

/-- What a primary checkpoint blob stores: the serializable leaves of the
train state (step, params, optimizer state, loss-scale state); the function
fields `tx` and `apply_fn` are not serialized by `flax.serialization`. -/
structure StoredState where
  step : ℕ
  params : PyTree
  opt_state : PyTree
  dynamic_scale : Option DynamicScale
deriving DecidableEq

/-- Serialize a train state into a primary checkpoint blob. -/
def toStored (s : TrainState) : StoredState :=
  { step := s.step, params := s.params, opt_state := s.opt_state
    dynamic_scale := s.dynamic_scale }

/-- Deserialize a primary checkpoint blob into a template state (the
template supplies the non-serialized function fields). -/
def ofStored (template : TrainState) (c : StoredState) : TrainState :=
  { template with
    step := c.step, params := c.params, opt_state := c.opt_state
    dynamic_scale := c.dynamic_scale }

/-- The errors a restore could report. -/
inductive CkptError where
  | checkpointNotFound

/-- The durable storage at one checkpoint directory: the retained primary
checkpoint blobs (`checkpoint_<step>`, in natural step order), the
fixed-name `opt_state.msgpack` blob in the GCP bucket, and the fixed-name
`opt_state.msgpack` file in the local working directory. -/
structure Storage where
  primaries : List StoredState
  bucketOpt : Option PyTree
  localOpt : Option PyTree

/-- The empty checkpoint directory (a fresh run clears the bucket,
lines 300-308). -/
def emptyStorage : Storage := { primaries := [], bucketOpt := none, localOpt := none }

/-- One `flax.training.checkpoints.save_checkpoint(workdir, state, step,
keep=3, overwrite=True)` call (line 59) acting on the retained primary
blobs: with overwrite enabled any blob whose step is not below the new step
is replaced, and only the `keep=3` most recent blobs survive the pruning
pass. -/
def savePrimaries (files : List StoredState) (c : StoredState) : List StoredState :=
  let kept := files.filter (fun f => decide (f.step < c.step)) ++ [c]
  kept.drop (kept.length - 3)

/-- `save_checkpoint` (lines 56-72): only the process with rank 0 writes;
it saves the primary blob with retention 3, then unconditionally writes the
optimizer state as the fixed-name `opt_state.msgpack` blob — to the bucket
when a GCP client is present (lines 62-68), to the local working directory
otherwise (lines 70-72). -/
def save_checkpoint (rank : ℕ) (client : Bool) (state : TrainState)
    (store : Storage) : Storage :=
  if rank = 0 then
    if client then
      { primaries := savePrimaries store.primaries (toStored state)
        bucketOpt := some state.opt_state
        localOpt := store.localOpt }
    else
      { primaries := savePrimaries store.primaries (toStored state)
        bucketOpt := store.bucketOpt
        localOpt := some state.opt_state }
  else store

/-- `restore_checkpoint` (lines 75-76), with the semantics of
`flax.training.checkpoints.restore_checkpoint(workdir, target)` when no
step is requested: restore the latest primary blob into the target; when
the directory holds no checkpoint blob, return the target unchanged (flax
logs and falls through — no exception is raised). -/
def restore_checkpoint (primaries : List StoredState) (target : TrainState) :
    Except CkptError TrainState :=
  match primaries.getLast? with
  | none => Except.ok target
  | some c => Except.ok (ofStored target c)

/-- `resume_step = int(state.step)` after the restore (lines 153-166). -/
def resumePoint (primaries : List StoredState) (template : TrainState) :
    Except CkptError ℕ :=
  match restore_checkpoint primaries template with
  | .ok s => .ok s.step
  | .error e => .error e

/-- A minimal concrete jax environment for evaluation: the engine reports a
finite loss and a single non-finite gradient entry. -/
def sampleEnv : JaxEnv :=
  { valueAndGrad := fun _f _p => (FpVal.fin 0, [[FpVal.nonfin]])
    exp := fun v => v }

/-- A concrete train state with the given step, one single-entry parameter
leaf, and an identity-style optimizer transformation. -/
def mkState (k : ℕ) : TrainState :=
  { step := k
    params := [[FpVal.fin 0]]
    opt_state := [[FpVal.fin 0]]
    tx := fun g o _p => (g, o)
    apply_fn := fun _p _b _t _r => FpVal.fin 0
    dynamic_scale := none }

/-- The flax-default loss-scale state. -/
def sampleDS : DynamicScale := { finSteps := 0, scale := 65536 }

/-- A concrete train state with dynamic loss scaling enabled. -/
def sampleStateDyn : TrainState := { mkState 0 with dynamic_scale := some sampleDS }

/-- A concrete batch. -/
def sampleBatch : Batch := [1, 2]

/-- A concrete stored primary checkpoint blob. -/
def sampleStored : StoredState := toStored (mkState 7)

/-- Four concrete train states with strictly increasing steps. -/
def sampleStates : List TrainState := [mkState 1, mkState 2, mkState 3, mkState 4]

/-- The mesh-shape assertion of lines 89-91 passes exactly when the device
count, floor-divided by the mesh size, is 1 — a strictly weaker condition
than `dp * mp = num_devices`. -/
theorem meshAssertPasses_iff (n dp mp : ℕ) :
    meshAssertPasses n dp mp = true ↔ dp * mp ≤ n ∧ n < 2 * (dp * mp) := by
  unfold meshAssertPasses
  rw [beq_iff_eq]
  constructor
  · intro h
    have hk : 0 < dp * mp := by
      rcases Nat.eq_zero_or_pos (dp * mp) with hk | hk
      · rw [hk, Nat.div_zero] at h; omega
      · exact hk
    have h1 : 1 * (dp * mp) ≤ n :=
      (Nat.le_div_iff_mul_le hk).mp (le_of_eq h.symm)
    have h2 : n < 2 * (dp * mp) :=
      (Nat.div_lt_iff_lt_mul hk).mp (by omega)
    omega
  · rintro ⟨h1, h2⟩
    have hk : 0 < dp * mp := by omega
    have ha : 1 ≤ n / (dp * mp) := (Nat.le_div_iff_mul_le hk).mpr (by omega)
    have hb : n / (dp * mp) < 2 := (Nat.div_lt_iff_lt_mul hk).mpr (by omega)
    omega

/-- Claim C2: the claim says the startup check fails exactly when
`dp_size * mp_size != total_devices`.  The code's assertion
(lines 89-91) tests `num_devices // (dp * mp) == 1` instead: with 8 devices
and mesh shape (1, 5) the assertion passes although 1 * 5 ≠ 8, so the
mismatched configuration is not rejected. -/
theorem C2_mesh_check_gap :
    meshAssertPasses 8 1 5 = true ∧ (1 * 5 : ℕ) ≠ 8 := by
  constructor
  · rfl
  · decide

/-- Claim C3: the sequence-length schedule bound at line 395 is the
constant function 512; at step 0 it returns 512, not the 128 required by
the staged curriculum [(0,128),(1000,512)] the claim describes. -/
theorem C3_step_to_seq_constant : step_to_seq 0 = 512 ∧ step_to_seq 0 ≠ 128 :=
  ⟨rfl, by decide⟩

/-- Claim C4, counterexample: restoring from a source with no checkpoint
blob does not fail — `restore_checkpoint` returns the template unchanged
(flax semantics), so a resume with an absent checkpoint raises no
`CheckpointNotFoundError`. -/
theorem C4_restore_absent_counterexample :
    restore_checkpoint [] (mkState 0) = Except.ok (mkState 0) := rfl

/-- Claim C4, amended: when the source location contains no checkpoint
blob, restore returns the template state unchanged and no error is raised
(the resumed run silently proceeds from the fresh template). -/
theorem C4_restore_absent_returns_template (target : TrainState) :
    restore_checkpoint [] target = Except.ok target := rfl

/-- Claim C5: `resume_step` is exactly the restored state's step field
(line 166), every microbatch with index at most `resume_step` is skipped
(line 437), and — within the total-step budget that bounds the loop — a
microbatch reaches the train step exactly when its index is strictly
greater than `resume_step`. -/
theorem C5_resume_skip_guard (gaSteps totalSteps r i : ℕ)
    (primaries : List StoredState) (template s : TrainState) :
    (restore_checkpoint primaries template = Except.ok s →
      resumePoint primaries template = Except.ok s.step) ∧
    (i ≤ r → processedMicrobatch gaSteps totalSteps (some r) i = false) ∧
    (i / gaSteps ≤ totalSteps →
      (processedMicrobatch gaSteps totalSteps (some r) i = true ↔ r < i)) := by
  refine ⟨?_, ?_, ?_⟩
  · intro h
    unfold resumePoint
    rw [h]
  · intro h
    unfold processedMicrobatch
    rcases Nat.lt_or_ge totalSteps (i / gaSteps) with hgt | hle
    · rw [if_pos hgt]
    · rw [if_neg (by omega)]
      simp only [decide_eq_false_iff_not]
      omega
  · intro h
    unfold processedMicrobatch
    rw [if_neg (by omega)]
    simp only [decide_eq_true_eq]

theorem C5_resume_skip_guard_witness :
    processedMicrobatch 2 100 (some 5) 3 = false ∧
    processedMicrobatch 2 100 (some 5) 9 = true ∧
    resumePoint [sampleStored] (mkState 0) = Except.ok 7 := by
  refine ⟨?_, ?_, ?_⟩
  · exact (C5_resume_skip_guard 2 100 5 3 [] (mkState 0) (mkState 0)).2.1 (by decide)
  · exact ((C5_resume_skip_guard 2 100 5 9 [] (mkState 0) (mkState 0)).2.2
      (by decide)).mpr (by decide)
  · exact (C5_resume_skip_guard 2 100 5 9 [sampleStored] (mkState 0)
      (ofStored (mkState 0) sampleStored)).1 rfl

/-- Claim C7: a `save_checkpoint` invocation on a process whose rank is not
0 performs no physical write — the storage is returned unchanged
(lines 56-57 guard every write behind `jax.process_index() == 0`). -/
theorem C7_rank_guard (rank : ℕ) (client : Bool) (state : TrainState)
    (store : Storage) (h : rank ≠ 0) :
    save_checkpoint rank client state store = store := by
  unfold save_checkpoint
  rw [if_neg h]

theorem C7_rank_guard_witness :
    save_checkpoint 1 true (mkState 5) emptyStorage = emptyStorage :=
  C7_rank_guard 1 true (mkState 5) emptyStorage (by decide)

/-- Claim C9: on the rank-0 process `save_checkpoint` always writes the
optimizer state as the separate fixed-name `opt_state.msgpack` blob — to
the bucket when a GCP client is present, to the local working directory
otherwise — unconditionally, in particular also in pure data-parallel runs
whose primary blob already contains the optimizer state inline
(lines 61-72). -/
theorem C9_opt_state_blob_unconditional (state : TrainState) (store : Storage) :
    (save_checkpoint 0 true state store).bucketOpt = some state.opt_state ∧
    (save_checkpoint 0 false state store).localOpt = some state.opt_state := by
  constructor <;> rfl

/-- Claim C10: on a fresh run the microbatch with index 0 reaches the train
step, and since 0 is divisible by the accumulation factor and by
`evaluation_frequency * accumulation factor`, the accumulation-window
branch (line 459) and the evaluation-and-checkpoint branch (lines 487-490)
both fire at index 0, with the logged window containing exactly the one
metric of that single microbatch. -/
theorem C10_first_microbatch_branches (gaSteps efSteps totalSteps : ℕ)
    (m : Metrics) :
    processedMicrobatch gaSteps totalSteps none 0 = true ∧
    driverIter gaSteps efSteps [] 0 m = ([], some (1, true)) := by
  constructor
  · unfold processedMicrobatch
    rw [if_neg (by simp [Nat.zero_div])]
  · unfold driverIter
    simp [Nat.zero_mod]

/-- Folding the retention-3 save over checkpoints with strictly increasing
steps keeps exactly the suffix of the last three saved blobs. -/
theorem savePrimaries_fold (cs : List StoredState)
    (h : cs.Pairwise (fun a b => a.step < b.step)) :
    cs.foldl savePrimaries [] = cs.drop (cs.length - 3) := by
  induction cs using List.reverseRecOn with
  | nil => rfl
  | append_singleton l c ih =>
    rw [List.pairwise_append] at h
    obtain ⟨hl, -, hlc⟩ := h
    have hlt : ∀ a ∈ l, a.step < c.step := fun a ha => hlc a ha c (by simp)
    rw [List.foldl_append, List.foldl_cons, List.foldl_nil, ih hl]
    have hfil : (l.drop (l.length - 3)).filter (fun f => decide (f.step < c.step))
        = l.drop (l.length - 3) := by
      refine List.filter_eq_self.mpr ?_
      intro a ha
      exact decide_eq_true (hlt a (List.drop_subset _ _ ha))
    simp only [savePrimaries]
    rw [hfil]
    rcases Nat.lt_or_ge l.length 3 with h3 | h3
    · have hld : l.length - 3 = 0 := by omega
      rw [hld, List.drop_zero]
    · have hdl : (l.drop (l.length - 3)).length = 3 := by
        rw [List.length_drop]; omega
      have hk1 : (l.drop (l.length - 3) ++ [c]).length - 3 = 1 := by
        rw [List.length_append, hdl, List.length_singleton]
      have hk2 : (l ++ [c]).length - 3 = l.length - 2 := by
        rw [List.length_append, List.length_singleton]; omega
      rw [hk1, hk2, List.drop_append_eq_append_drop, List.drop_append_eq_append_drop,
        List.drop_drop]
      congr 1
      · congr 1
        omega
      · congr 1
        rw [hdl]
        omega

/-- Folding the full rank-0 `save_checkpoint` over a run's states acts on
the primary blobs exactly as folding the flax retention-3 save over their
serializations. -/
theorem save_checkpoint_fold_primaries (client : Bool) (states : List TrainState)
    (store : Storage) :
    (states.foldl (fun acc st => save_checkpoint 0 client st acc) store).primaries
      = (states.map toStored).foldl savePrimaries store.primaries := by
  induction states generalizing store with
  | nil => rfl
  | cons st rest ih =>
    rw [List.foldl_cons, List.map_cons, List.foldl_cons, ih]
    congr 1
    cases client <;> rfl

/-- Claim C6: after any sequence of more than three rank-0 save cycles with
increasing step counters, the destination retains exactly the serializations
of the three most recent states — so at most 3 primary checkpoints survive
(`keep=3` at line 59). -/
theorem C6_retention_keep3 (client : Bool) (states : List TrainState)
    (hmono : states.Pairwise (fun a b => a.step < b.step))
    (hlen : 3 < states.length) :
    (states.foldl (fun acc st => save_checkpoint 0 client st acc)
        emptyStorage).primaries
      = (states.map toStored).drop (states.length - 3) ∧
    ((states.foldl (fun acc st => save_checkpoint 0 client st acc)
        emptyStorage).primaries).length = 3 := by
  have hp : (states.map toStored).Pairwise (fun a b => a.step < b.step) := by
    rw [List.pairwise_map]
    exact hmono
  have hmain :
      (states.foldl (fun acc st => save_checkpoint 0 client st acc)
          emptyStorage).primaries
        = (states.map toStored).drop (states.length - 3) := by
    rw [save_checkpoint_fold_primaries client states emptyStorage]
    show (states.map toStored).foldl savePrimaries []
        = (states.map toStored).drop (states.length - 3)
    rw [savePrimaries_fold (states.map toStored) hp, List.length_map]
  refine ⟨hmain, ?_⟩
  rw [hmain, List.length_drop, List.length_map]
  omega

theorem C6_retention_keep3_witness :
    (sampleStates.foldl (fun acc st => save_checkpoint 0 true st acc)
        emptyStorage).primaries
      = (sampleStates.map toStored).drop (sampleStates.length - 3) :=
  (C6_retention_keep3 true sampleStates (by decide) (by decide)).1

/-- `jnp.where` with a false scalar condition returns its second operand,
entrywise, on equal-length leaves. -/
theorem zipWith_select_false (nl ol : Leaf) (h : nl.length = ol.length) :
    List.zipWith (fun n o => jnpWhere false n o) nl ol = ol := by
  induction nl generalizing ol with
  | nil =>
    cases ol with
    | nil => rfl
    | cons y ys => simp at h
  | cons x xs ih =>
    cases ol with
    | nil => simp at h
    | cons y ys =>
      simp only [List.zipWith_cons_cons]
      rw [show jnpWhere false x y = y from rfl, ih ys (by simpa using h)]

/-- The tree-level select with a false scalar condition returns the old
tree whenever the two trees have the same shape. -/
theorem treeSelect_false (new old : PyTree) (h : shape new = shape old) :
    treeSelect false new old = old := by
  induction new generalizing old with
  | nil =>
    cases old with
    | nil => rfl
    | cons y ys => simp [shape] at h
  | cons x xs ih =>
    cases old with
    | nil => simp [shape] at h
    | cons y ys =>
      simp only [shape, List.map_cons, List.cons.injEq] at h
      unfold treeSelect
      simp only [List.zipWith_cons_cons, List.cons.injEq]
      exact ⟨zipWith_select_false x y h.1, ih ys h.2⟩

/-- Applying same-shaped updates to a parameter tree preserves its shape. -/
theorem shape_treeAdd (p u : PyTree) (h : shape u = shape p) :
    shape (treeAdd p u) = shape p := by
  induction p generalizing u with
  | nil =>
    cases u with
    | nil => rfl
    | cons y ys => simp [shape] at h
  | cons x xs ih =>
    cases u with
    | nil => simp [shape] at h
    | cons y ys =>
      simp only [shape, List.map_cons, List.cons.injEq] at h
      unfold treeAdd shape
      simp only [List.zipWith_cons_cons, List.map_cons, List.cons.injEq]
      constructor
      · rw [List.length_zipWith]
        omega
      · exact ih ys h.2

/-- In the dynamic-scaling branch, the params of the returned state are the
finite-select between the updated and the pre-step params. -/
theorem train_step_dyn_params (env : JaxEnv) (s : TrainState) (batch : Batch)
    (rng : ℕ) (param_spec : Option PartSpec) (ds : DynamicScale)
    (hds : s.dynamic_scale = some ds) :
    (train_step env s batch rng param_spec).1.params
      = treeSelect (allFinite (dynGrads env s batch rng ds))
          (treeAdd s.params
            ((s.tx (dynGrads env s batch rng ds) s.opt_state s.params).1))
          s.params := by
  unfold train_step
  rw [hds]
  rfl

/-- In the dynamic-scaling branch, the optimizer state of the returned
state is the finite-select between the updated and the pre-step state. -/
theorem train_step_dyn_opt_state (env : JaxEnv) (s : TrainState) (batch : Batch)
    (rng : ℕ) (param_spec : Option PartSpec) (ds : DynamicScale)
    (hds : s.dynamic_scale = some ds) :
    (train_step env s batch rng param_spec).1.opt_state
      = treeSelect (allFinite (dynGrads env s batch rng ds))
          ((s.tx (dynGrads env s batch rng ds) s.opt_state s.params).2)
          s.opt_state := by
  unfold train_step
  rw [hds]
  rfl

/-- In the dynamic-scaling branch, the step counter always advances by
exactly 1 (the rollback of lines 582-590 does not touch it). -/
theorem train_step_dyn_step (env : JaxEnv) (s : TrainState) (batch : Batch)
    (rng : ℕ) (param_spec : Option PartSpec) (ds : DynamicScale)
    (hds : s.dynamic_scale = some ds) :
    (train_step env s batch rng param_spec).1.step = s.step + 1 := by
  unfold train_step
  rw [hds]
  rfl

/-- In the dynamic-scaling branch, the returned loss-scale state is the
flax adjustment of the incoming one by the gradients' finiteness. -/
theorem train_step_dyn_ds (env : JaxEnv) (s : TrainState) (batch : Batch)
    (rng : ℕ) (param_spec : Option PartSpec) (ds : DynamicScale)
    (hds : s.dynamic_scale = some ds) :
    (train_step env s batch rng param_spec).1.dynamic_scale
      = some (dsUpdate ds (allFinite (dynGrads env s batch rng ds))) := by
  unfold train_step
  rw [hds]
  rfl

/-- Backing off a positive loss scale strictly decreases it. -/
theorem dsUpdate_scale_lt (ds : DynamicScale) (hscale : 0 < ds.scale) :
    (dsUpdate ds false).scale < ds.scale := by
  show ds.scale * backoffFactor < ds.scale
  unfold backoffFactor
  linarith

/-- Claim C1: in a train step with dynamic loss scaling enabled whose
computed gradient contains a non-finite value, the returned state's params
and optimizer state are identical to their pre-step values, the step
counter is still incremented by 1, and the loss scale is adjusted strictly
downward (lines 560-590; the optimizer contract guarantees the shape
hypotheses: updates and new optimizer state match the respective trees). -/
theorem C1_nonfinite_rollback (env : JaxEnv) (s : TrainState) (batch : Batch)
    (rng : ℕ) (param_spec : Option PartSpec) (ds : DynamicScale)
    (hds : s.dynamic_scale = some ds)
    (hscale : 0 < ds.scale)
    (hnonfin : allFinite (dynGrads env s batch rng ds) = false)
    (hupd : shape ((s.tx (dynGrads env s batch rng ds) s.opt_state s.params).1)
        = shape s.params)
    (hopt : shape ((s.tx (dynGrads env s batch rng ds) s.opt_state s.params).2)
        = shape s.opt_state) :
    (train_step env s batch rng param_spec).1.params = s.params ∧
    (train_step env s batch rng param_spec).1.opt_state = s.opt_state ∧
    (train_step env s batch rng param_spec).1.step = s.step + 1 ∧
    ∃ d, (train_step env s batch rng param_spec).1.dynamic_scale = some d ∧
      d.scale < ds.scale := by
  refine ⟨?_, ?_, ?_, ?_⟩
  · rw [train_step_dyn_params env s batch rng param_spec ds hds, hnonfin]
    exact treeSelect_false _ _ (shape_treeAdd _ _ hupd)
  · rw [train_step_dyn_opt_state env s batch rng param_spec ds hds, hnonfin]
    exact treeSelect_false _ _ hopt
  · exact train_step_dyn_step env s batch rng param_spec ds hds
  · refine ⟨dsUpdate ds false, ?_, dsUpdate_scale_lt ds hscale⟩
    rw [train_step_dyn_ds env s batch rng param_spec ds hds, hnonfin]

theorem C1_nonfinite_rollback_witness :
    (train_step sampleEnv sampleStateDyn sampleBatch 0 none).1.params
        = sampleStateDyn.params ∧
    (train_step sampleEnv sampleStateDyn sampleBatch 0 none).1.opt_state
        = sampleStateDyn.opt_state ∧
    (train_step sampleEnv sampleStateDyn sampleBatch 0 none).1.step
        = sampleStateDyn.step + 1 ∧
    ∃ d, (train_step sampleEnv sampleStateDyn sampleBatch 0 none).1.dynamic_scale
        = some d ∧ d.scale < sampleDS.scale :=
  C1_nonfinite_rollback sampleEnv sampleStateDyn sampleBatch 0 none sampleDS rfl
    (by norm_num [sampleDS]) rfl rfl rfl

/-- Claim C8: `train_step` is a pure, deterministic function of its inputs:
under one differentiation engine, two invocations with identical state,
batch, rng key and partition spec produce identical (state, metrics)
results — in this embedding the function has no effect other than its
return value by construction. -/
theorem C8_train_step_deterministic (env : JaxEnv) (s1 s2 : TrainState)
    (b1 b2 : Batch) (k1 k2 : ℕ) (sp1 sp2 : Option PartSpec)
    (hs : s1 = s2) (hb : b1 = b2) (hk : k1 = k2) (hsp : sp1 = sp2) :
    train_step env s1 b1 k1 sp1 = train_step env s2 b2 k2 sp2 := by
  rw [hs, hb, hk, hsp]

theorem C8_train_step_deterministic_witness :
    train_step sampleEnv (mkState 3) sampleBatch 5 none
      = train_step sampleEnv (mkState 3) sampleBatch 5 none :=
  C8_train_step_deterministic sampleEnv (mkState 3) (mkState 3) sampleBatch
    sampleBatch 5 5 none none rfl rfl rfl rfl

end Transformer
